import Mathlib

/-!
Verification of the stats-synchronization and scoring engine of a fantasy
hockey pool (Node/Express + PostgreSQL).  The JavaScript services and SQL
views are shallowly embedded as executable Lean definitions: machine
numbers become `Nat`, SQL tables become lists of row structures, fallible
steps become `Option`, and each HTTP handler becomes a pure function from
a database state and request to a result and an updated database state.
Timestamps (`NOW()`, `updated_at`, `submitted_at`) are modelled as `Nat`
instants where a claim depends on them and are otherwise outside the model.
-/

namespace NetSports

/-- Player role, per the `players.position` CHECK constraint
(`forward` | `defense` | `goalie`). -/
inductive Position where
  | forward
  | defense
  | goalie
deriving DecidableEq, Repr

/-- Team conference, per the `teams.conference` CHECK constraint
(`western` | `eastern`). -/
inductive Conference where
  | western
  | eastern
deriving DecidableEq, Repr

/-! ### Round classifier (`determineRound` in the NHL API service) -/

/-- Numeric value of a decimal digit character, `none` for a non-digit. -/
def digitVal (c : Char) : Option Nat :=
  if c.isDigit then some (c.toNat - 48) else none

/-- Accumulating loop of `jsParseInt`: consume further leading digits. -/
def jsParseIntGo (acc : Nat) : List Char → Nat
  | [] => acc
  | c :: cs =>
    match digitVal c with
    | some d => jsParseIntGo (10 * acc + d) cs
    | none => acc

/-- JavaScript `parseInt` on a character list: parse the maximal leading
run of decimal digits, `none` (NaN) when the first character is not a
digit.  (Leading whitespace/sign forms of `parseInt` can only produce
values below 10 from a two-character slice, which the round classifier
maps to its default exactly as NaN is, so they are not distinguished.) -/
def jsParseInt : List Char → Option Nat
  | [] => none
  | c :: cs =>
    match digitVal c with
    | some d => some (jsParseIntGo d cs)
    | none => none

/-- `determineRound(gameId)`: classify an NHL game identifier into a
playoff round.  `String(gameId)` shorter than 4 characters returns 1;
otherwise `parseInt(gameIdStr.slice(-4, -2))` is compared against the
ranges 11-17 / 21-27 / 31-47, defaulting to round 1. -/
def determineRound (gameId : String) : Nat :=
  let cs := gameId.data
  if cs.length < 4 then 1
  else
    match jsParseInt ((cs.drop (cs.length - 4)).take 2) with
    | none => 1
    | some roundCode =>
      if 11 ≤ roundCode ∧ roundCode ≤ 17 then 1
      else if 21 ≤ roundCode ∧ roundCode ≤ 27 then 2
      else if 31 ≤ roundCode ∧ roundCode ≤ 47 then 3
      else 1

/-! ### Stat aggregator (`parseGameLogStats`) -/

/-- One entry of an upstream game log.  Fields the upstream feed may omit
are `Option`; JavaScript reads them with `|| 0`, `=== 'W'`, truthiness, or
`=== 0` as modelled in `applyGame`. -/
structure GameResult where
  gameId : String
  goals : Option Nat
  assists : Option Nat
  decision : Option String
  shutouts : Option Nat
  goalsAgainst : Option Nat
deriving DecidableEq, Repr

/-- Cumulative per-round totals, one slot of the `stats` object. -/
structure RoundStats where
  goals : Nat
  assists : Nat
  wins : Nat
  shutouts : Nat
  gamesPlayed : Nat
deriving DecidableEq, Repr

/-- All-zero round totals. -/
def RoundStats.zero : RoundStats := ⟨0, 0, 0, 0, 0⟩

/-- The `stats` object of `parseGameLogStats`: one `RoundStats` per round
1, 2, 3. -/
structure GameStats where
  r1 : RoundStats
  r2 : RoundStats
  r3 : RoundStats
deriving DecidableEq, Repr

/-- Initial `stats` object: all three rounds zeroed. -/
def GameStats.init : GameStats := ⟨.zero, .zero, .zero⟩

/-- Read the slot for a round (`stats[round]`).  `determineRound` only
produces 1..3, so the catch-all branch is unreachable in the aggregator. -/
def GameStats.get (s : GameStats) : Nat → RoundStats
  | 1 => s.r1
  | 2 => s.r2
  | 3 => s.r3
  | _ => .zero

/-- Write the slot for a round. -/
def GameStats.set (s : GameStats) (round : Nat) (v : RoundStats) : GameStats :=
  match round with
  | 1 => { s with r1 := v }
  | 2 => { s with r2 := v }
  | 3 => { s with r3 := v }
  | _ => s

/-- Goalie branch of the per-game update: increment wins on a 'W'
decision, add the explicit shutout count when the field is truthy, then
force the round's shutout total up to 1 on a zero-goals-against win
(`stats[round].shutouts = Math.max(stats[round].shutouts, 1)`). -/
def applyGoalieGame (cur : RoundStats) (g : GameResult) : RoundStats :=
  let s1 := if g.decision == some "W" then { cur with wins := cur.wins + 1 } else cur
  let s2 :=
    match g.shutouts with
    | some n => if n != 0 then { s1 with shutouts := s1.shutouts + n } else s1
    | none => s1
  if g.goalsAgainst == some 0 && g.decision == some "W" then
    { s2 with shutouts := max s2.shutouts 1 }
  else s2

/-- Skater branch of the per-game update: `goals += game.goals || 0`,
`assists += game.assists || 0`. -/
def applySkaterGame (cur : RoundStats) (g : GameResult) : RoundStats :=
  { cur with goals := cur.goals + g.goals.getD 0,
             assists := cur.assists + g.assists.getD 0 }

/-- Body of the `for (const game of gameLog.gameLog)` loop: classify the
game's round, apply the role-specific update, and increment that round's
games-played regardless of role. -/
def applyGame (isGoalie : Bool) (s : GameStats) (g : GameResult) : GameStats :=
  let round := determineRound g.gameId
  let cur := s.get round
  let cur' := if isGoalie then applyGoalieGame cur g else applySkaterGame cur g
  s.set round { cur' with gamesPlayed := cur'.gamesPlayed + 1 }

/-- `parseGameLogStats(gameLog, isGoalie)`: fold a game log into
per-round totals.  A payload with no usable `gameLog` array (`none`)
yields the zero stats object. -/
def parseGameLogStats (isGoalie : Bool) : Option (List GameResult) → GameStats
  | none => GameStats.init
  | some log => log.foldl (applyGame isGoalie) GameStats.init

/-! ### Sync orchestrator persistence (`updateAllPlayerStats`) -/

/-- The `player_stats` table abstracted to its primary key: a partial map
from (player id, round) to the cumulative stat values.  The row's
`updated_at` timestamp is outside this model. -/
abbrev SnapMap : Type := Nat → Nat → Option RoundStats

/-- One `INSERT ... ON CONFLICT (player_id, round) DO UPDATE` statement:
fully replace the row keyed by (player, round) with the given values. -/
def upsertSnapshot (m : SnapMap) (playerId round : Nat) (v : RoundStats) : SnapMap :=
  fun p r => if p = playerId ∧ r = round then some v else m p r

/-- A pending write produced by the sync loop: key and replacement value. -/
abbrev SnapWrite : Type := (Nat × Nat) × RoundStats

/-- Apply a sequence of upserts in order. -/
def applyWrites (m : SnapMap) : List SnapWrite → SnapMap
  | [] => m
  | w :: ws => applyWrites (upsertSnapshot m w.1.1 w.1.2 w.2) ws

/-- One active player as seen by the sync loop: database id, goalie flag
(`player.position === 'goalie'`), and the game-log fetch result.  `none`
models a failed fetch (`getPlayerGameLog` returned `null`), which skips
the player; `some payload` carries the payload's optional `gameLog`
array, which is aggregated and upserted even when absent or empty. -/
structure SyncPlayerInput where
  playerId : Nat
  isGoalie : Bool
  fetched : Option (Option (List GameResult))
deriving Repr

/-- The three upserts (rounds 1, 2, 3) the loop issues for one player,
empty when the fetch failed. -/
def playerWrites (inp : SyncPlayerInput) : List SnapWrite :=
  match inp.fetched with
  | none => []
  | some payload =>
    let stats := parseGameLogStats inp.isGoalie payload
    [((inp.playerId, 1), stats.r1), ((inp.playerId, 2), stats.r2), ((inp.playerId, 3), stats.r3)]

/-- All upserts of one sync run, in loop order. -/
def syncWrites (inputs : List SyncPlayerInput) : List SnapWrite :=
  (inputs.map playerWrites).foldr (· ++ ·) []

/-- The `player_stats` effect of one `updateAllPlayerStats` run against a
fixed set of fetch results. -/
def runSyncSnapshots (m : SnapMap) (inputs : List SyncPlayerInput) : SnapMap :=
  applyWrites m (syncWrites inputs)

/-- The process-wide settings rows this engine touches: the
`stats_last_updated` timestamp and the `stats_verified` flag. -/
structure SyncSettings where
  statsLastUpdated : Option Nat
  statsVerified : Bool
deriving DecidableEq, Repr

/-- The settings step at the end of a complete `updateAllPlayerStats`
run: `UPDATE settings SET value = <now> ... WHERE key = 'stats_last_updated'`
followed by `UPDATE settings SET value = 'true' ... WHERE key = 'stats_verified'`. -/
def recordSyncSettings (s : SyncSettings) (now : Nat) : SyncSettings :=
  { s with statsLastUpdated := some now, statsVerified := true }

/-! ### Database rows for rosters, scoring and the leaderboard -/

/-- A row of `players` (the columns the handlers under study read). -/
structure PlayerRow where
  id : Nat
  position : Position
  cost : Nat
  teamAbbrev : String
deriving DecidableEq, Repr

/-- A row of `teams` (abbreviation, named `abbr` since `abbrev` is a
Lean keyword, and conference). -/
structure TeamRow where
  abbr : String
  conference : Conference
deriving DecidableEq, Repr

/-- A row of `rounds` (`round_number`, nullable `pick_deadline`). -/
structure RoundRow where
  roundNumber : Nat
  pickDeadline : Option Nat
deriving DecidableEq, Repr

/-- A row of `rosters`.  `submitted_at` is outside the model. -/
structure RosterRow where
  id : Nat
  userId : Nat
  round : Nat
  isSubmitted : Bool
deriving DecidableEq, Repr

/-- A row of `roster_players`. -/
structure SelectionRow where
  rosterId : Nat
  playerId : Nat
  isStar : Bool
deriving DecidableEq, Repr

/-- A row of `team_qualifications`. -/
structure QualRow where
  roundNumber : Nat
  teamAbbrev : String
  qualified : Bool
deriving DecidableEq, Repr

/-- A row of `player_stats` in relational form (for the leaderboard
join). -/
structure StatRow where
  playerId : Nat
  round : Nat
  goals : Nat
  assists : Nat
  wins : Nat
  shutouts : Nat
deriving DecidableEq, Repr

/-- A row of `users` (the columns the leaderboard reads). -/
structure UserRow where
  id : Nat
  username : String
  isVerified : Bool
deriving DecidableEq, Repr

/-- The database state the roster and leaderboard operations touch. -/
structure Db where
  users : List UserRow
  teams : List TeamRow
  players : List PlayerRow
  rounds : List RoundRow
  rosters : List RosterRow
  rosterPlayers : List SelectionRow
  qualifications : List QualRow
  playerStats : List StatRow
deriving DecidableEq, Repr

/-- `SELECT pick_deadline FROM rounds WHERE round_number = $1`. -/
def findRound (db : Db) (round : Nat) : Option RoundRow :=
  db.rounds.find? (fun r => r.roundNumber == round)

/-- `SELECT id FROM rosters WHERE user_id = $1 AND round = $2`. -/
def findRoster (db : Db) (userId round : Nat) : Option RosterRow :=
  db.rosters.find? (fun r => r.userId == userId && r.round == round)

/-! ### Roster save (`PUT /api/rosters/:round`, rounds-table revision) -/

/-- `SALARY_CAP = 30`. -/
def SALARY_CAP : Nat := 30

/-- The request body's `selections` object: player-id lists per
conference and slot. -/
structure SelectionsInput where
  westernForwards : List Nat
  westernDefense : List Nat
  westernGoalies : List Nat
  easternForwards : List Nat
  easternDefense : List Nat
  easternGoalies : List Nat
deriving DecidableEq, Repr

/-- Flatten the `selections` object in handler order: conferences
`['western', 'eastern']`, slots `['forwards', 'defense', 'goalies']`. -/
def SelectionsInput.playerIds (s : SelectionsInput) : List Nat :=
  s.westernForwards ++ s.westernDefense ++ s.westernGoalies ++
    s.easternForwards ++ s.easternDefense ++ s.easternGoalies

/-- The `selections` object with every list empty. -/
def SelectionsInput.empty : SelectionsInput := ⟨[], [], [], [], [], []⟩

/-- Outcome of the save handler, one constructor per response branch. -/
inductive SaveResult where
  | saved (rosterId : Nat)
  | invalidRound
  | deadlineNotSet
  | locked
  | overCap
  | notQualified
deriving DecidableEq, Repr

/-- `SELECT team_abbrev FROM team_qualifications WHERE round_number = $2
AND qualified = true`. -/
def qualifiedAbbrevs (db : Db) (round : Nat) : List String :=
  (db.qualifications.filter (fun q => q.roundNumber == round && q.qualified)).map (·.teamAbbrev)

/-- `SELECT COALESCE(SUM(cost), 0) FROM players WHERE id = ANY($1)`:
each matching player row contributes its cost once, duplicates in the
id list notwithstanding. -/
def rosterCost (db : Db) (playerIds : List Nat) : Nat :=
  ((db.players.filter (fun p => playerIds.contains p.id)).map (·.cost)).sum

/-- `SELECT COUNT(*) FROM players p WHERE p.id = ANY($1) AND
p.team_abbrev NOT IN (<qualified teams of the round>)`. -/
def unqualifiedCount (db : Db) (round : Nat) (playerIds : List Nat) : Nat :=
  (db.players.filter
    (fun p => playerIds.contains p.id && !(qualifiedAbbrevs db round).contains p.teamAbbrev)).length

/-- The save handler (the revision that reads lock dates from the
`rounds` table).  Checks, in order: round in 1..3; a `rounds` row with a
non-null `pick_deadline` exists; current time not past the deadline.
Then, inside one transaction: look up or create the user's roster for
the round, delete its existing `roster_players`, and when the flattened
selection list is non-empty check the salary cap and team
qualifications, rolling back on failure; finally insert one row per
selected player, starred iff its id appears among `Object.values(stars)`.
The handler performs no submitted-roster check.  The paired tiebreaker
upsert writes a table no claim reads and is outside the model.
Rollback is modelled by returning the original database state. -/
def saveRoster (db : Db) (now userId round : Nat) (sels : SelectionsInput)
    (stars : List Nat) (newRosterId : Nat) : SaveResult × Db :=
  if round < 1 ∨ 3 < round then (.invalidRound, db)
  else
    match findRound db round with
    | none => (.deadlineNotSet, db)
    | some rr =>
      match rr.pickDeadline with
      | none => (.deadlineNotSet, db)
      | some deadline =>
        if deadline < now then (.locked, db)
        else
          let (rosterId, rosters') : Nat × List RosterRow :=
            match findRoster db userId round with
            | some r => (r.id, db.rosters)
            | none => (newRosterId, db.rosters ++ [⟨newRosterId, userId, round, false⟩])
          let cleared := db.rosterPlayers.filter (fun s => s.rosterId != rosterId)
          let playerIds := sels.playerIds
          let rejection : Option SaveResult :=
            if playerIds.isEmpty then none
            else if SALARY_CAP < rosterCost db playerIds then some .overCap
            else if 0 < unqualifiedCount db round playerIds then some .notQualified
            else none
          match rejection with
          | some e => (e, db)
          | none =>
            let inserted := cleared ++
              playerIds.map (fun pid => SelectionRow.mk rosterId pid (stars.contains pid))
            (.saved rosterId, { db with rosters := rosters', rosterPlayers := inserted })

/-! ### Roster submit (`POST /api/rosters/:round/submit`) -/

/-- Outcome of the submit handler. -/
inductive SubmitResult where
  | submitted
  | deadlineNotSet
  | locked
  | noRoster
  | incomplete
deriving DecidableEq, Repr

/-- The completeness query: `roster_players` of the roster joined to
`players` and `teams`, yielding (conference, position, is_star) per
selection; inner joins drop selections whose player or team row is
missing. -/
def rosterPositionRows (db : Db) (rosterId : Nat) : List (Conference × Position × Bool) :=
  (db.rosterPlayers.filter (fun s => s.rosterId == rosterId)).filterMap fun s =>
    match db.players.find? (fun p => p.id == s.playerId) with
    | none => none
    | some p =>
      match db.teams.find? (fun t => t.abbr == p.teamAbbrev) with
      | none => none
      | some t => some (t.conference, p.position, s.isStar)

/-- `counts[conference][position]` after the counting loop. -/
def countPos (rows : List (Conference × Position × Bool))
    (c : Conference) (pos : Position) : Nat :=
  (rows.filter (fun r => r.1 == c && r.2.1 == pos)).length

/-- `starCount` after the counting loop. -/
def countStars (rows : List (Conference × Position × Bool)) : Nat :=
  (rows.filter (fun r => r.2.2)).length

/-- The handler's `isComplete` expression: 3 forwards, 2 defensemen and
1 goalie per conference, and exactly 3 starred selections in total. -/
def rosterComplete (rows : List (Conference × Position × Bool)) : Bool :=
  countPos rows .western .forward == 3 && countPos rows .western .defense == 2 &&
    countPos rows .western .goalie == 1 &&
    countPos rows .eastern .forward == 3 && countPos rows .eastern .defense == 2 &&
    countPos rows .eastern .goalie == 1 &&
    countStars rows == 3

/-- The submit handler (rounds-table revision): check the round's
deadline exists and has not passed, that a roster exists, and the
completeness condition; on success set `is_submitted = true`
(`submitted_at` is outside the model).  This revision has no
round-range check — an out-of-range round finds no `rounds` row and
reports the deadline as unset — and no already-submitted check. -/
def submitRoster (db : Db) (now userId round : Nat) : SubmitResult × Db :=
  match findRound db round with
  | none => (.deadlineNotSet, db)
  | some rr =>
    match rr.pickDeadline with
    | none => (.deadlineNotSet, db)
    | some deadline =>
      if deadline < now then (.locked, db)
      else
        match findRoster db userId round with
        | none => (.noRoster, db)
        | some r =>
          if rosterComplete (rosterPositionRows db r.id) then
            (.submitted,
              { db with rosters :=
                  db.rosters.map (fun x => if x.id == r.id then { x with isSubmitted := true } else x) })
          else (.incomplete, db)

/-! ### Scoring and the leaderboard view -/

/-- The scoring CASE expression of the `leaderboard` view: positions
`forward` and `defense` score `(goals + assists)`, the remaining
position (`goalie`) scores `(wins * 2 + shutouts)`, each doubled for a
starred selection. -/
def score (pos : Position) (goals assists wins shutouts : Nat) (isStar : Bool) : Nat :=
  if pos == .forward || pos == .defense then
    (goals + assists) * (if isStar then 2 else 1)
  else
    (wins * 2 + shutouts) * (if isStar then 2 else 1)

/-- Points one `roster_players` row contributes to its user's total: the
selection's player left-joined to that player's `player_stats` row for
the roster's round.  A missing player or stats row makes the scoring
expression SQL NULL, which `SUM` ignores, modelled as 0. -/
def selectionPoints (db : Db) (sel : SelectionRow) (round : Nat) : Nat :=
  match db.players.find? (fun p => p.id == sel.playerId) with
  | none => 0
  | some p =>
    match db.playerStats.find? (fun ps => ps.playerId == p.id && ps.round == round) with
    | none => 0
    | some ps => score p.position ps.goals ps.assists ps.wins ps.shutouts sel.isStar

/-- `total_points` of one user in the `leaderboard` view: the sum over
every selection of every submitted roster the user owns (the view's
`LEFT JOIN rosters ... AND r.is_submitted = true` followed by the joins
to `roster_players`, `players` and `player_stats`). -/
def totalPoints (db : Db) (userId : Nat) : Nat :=
  ((db.rosters.filter (fun r => r.userId == userId && r.isSubmitted)).map
    (fun r => ((db.rosterPlayers.filter (fun s => s.rosterId == r.id)).map
      (fun s => selectionPoints db s r.round)).sum)).sum

/-- One output row of the `leaderboard` view. -/
structure LeaderboardRow where
  userId : Nat
  username : String
  totalPoints : Nat
deriving DecidableEq, Repr

/-- The `leaderboard` view: one row per verified user (`WHERE
u.is_verified = true`, `GROUP BY u.id, u.username` — the left joins keep
users without submitted rosters, whose sum collapses to the COALESCE
default 0), ordered by `total_points DESC`. -/
def leaderboard (db : Db) : List LeaderboardRow :=
  ((db.users.filter (·.isVerified)).map
    (fun u => ⟨u.id, u.username, totalPoints db u.id⟩)).mergeSort
    (fun a b => b.totalPoints ≤ a.totalPoints)

/-! ### Helper lemmas -/

/-- The classifier only ever produces rounds 1, 2 or 3. -/
lemma determineRound_cases (g : String) :
    determineRound g = 1 ∨ determineRound g = 2 ∨ determineRound g = 3 := by
  unfold determineRound
  dsimp only
  split
  · exact Or.inl rfl
  · split
    · exact Or.inl rfl
    · split
      · exact Or.inl rfl
      · split
        · exact Or.inr (Or.inl rfl)
        · split
          · exact Or.inr (Or.inr rfl)
          · exact Or.inl rfl

/-- Reading back a just-written round slot. -/
lemma GameStats.get_set_self (s : GameStats) (r : Nat) (v : RoundStats)
    (h : r = 1 ∨ r = 2 ∨ r = 3) : (s.set r v).get r = v := by
  rcases h with h | h | h <;> subst h <;> rfl

/-- Every slot of the initial stats object is zero. -/
lemma GameStats.get_init (r : Nat) : GameStats.init.get r = RoundStats.zero := by
  unfold GameStats.get
  split <;> rfl

/-- Shutout bookkeeping of the goalie branch on a zero-goals-against win
with no explicit shutout field: the round total is forced up to 1. -/
lemma applyGoalieGame_shutouts_implicit (cur : RoundStats) (g : GameResult)
    (hw : g.decision = some "W") (hga : g.goalsAgainst = some 0) (hso : g.shutouts = none) :
    (applyGoalieGame cur g).shutouts = max cur.shutouts 1 := by
  unfold applyGoalieGame
  rw [hw, hga, hso]
  simp

/-- Shutout bookkeeping of the goalie branch on a game with an explicit
positive shutout count: the count is added and the zero-goals-against
top-up can never lower it. -/
lemma applyGoalieGame_shutouts_explicit (cur : RoundStats) (g : GameResult) (n : Nat)
    (hso : g.shutouts = some (n + 1)) :
    (applyGoalieGame cur g).shutouts = cur.shutouts + (n + 1) := by
  unfold applyGoalieGame
  rw [hso]
  by_cases h1 : (g.decision == some "W") = true <;>
    by_cases h2 : g.goalsAgainst = some 0 <;>
      simp [h1, h2] <;> omega

/-- The per-game goalie update, read back at the game's round. -/
lemma applyGame_goalie_shutouts (s : GameStats) (g : GameResult)
    (hw : g.decision = some "W") (hga : g.goalsAgainst = some 0) (hso : g.shutouts = none) :
    ((applyGame true s g).get (determineRound g.gameId)).shutouts =
      max ((s.get (determineRound g.gameId)).shutouts) 1 := by
  unfold applyGame
  rw [GameStats.get_set_self _ _ _ (determineRound_cases g.gameId)]
  simp [applyGoalieGame_shutouts_implicit _ _ hw hga hso]

/-! ### Claims -/

/-- C6: the leaderboard's scoring expression gives a skater (forward or
defense) `(goals + assists)` points, doubled when starred, and a
goaltender `(wins * 2 + shutouts)` points, doubled when starred; in
particular a non-star skater with 2 goals and 1 assist scores 3, the
same skater starred scores 6, and a star goaltender with 1 win and 1
shutout scores 6. -/
theorem score_formula :
    (∀ (g a w so : Nat) (st : Bool),
        score .forward g a w so st = (g + a) * (if st then 2 else 1)) ∧
    (∀ (g a w so : Nat) (st : Bool),
        score .defense g a w so st = (g + a) * (if st then 2 else 1)) ∧
    (∀ (g a w so : Nat) (st : Bool),
        score .goalie g a w so st = (w * 2 + so) * (if st then 2 else 1)) ∧
    score .forward 2 1 0 0 false = 3 ∧
    score .forward 2 1 0 0 true = 6 ∧
    score .goalie 0 0 1 1 true = 6 := by
  refine ⟨?_, ?_, ?_, by decide, by decide, by decide⟩ <;> intro g a w so st <;> rfl

/-- C9 (counterexample): the settings step at the end of a complete
`updateAllPlayerStats` run does not leave the stats-verified flag
unchanged — starting from the schema's default (`stats_verified =
'false'`, no last-updated timestamp) it flips the flag to true. -/
theorem sync_changes_verified_flag :
    (recordSyncSettings ⟨none, false⟩ 7).statsVerified ≠
      (SyncSettings.mk none false).statsVerified := by
  decide

/-- C9 (amended): a complete run of the sync orchestrator records the
process-wide last-updated timestamp and also unconditionally sets the
stats-verified flag to true (the flag is additionally settable through
the admin settings endpoint, but not only there). -/
theorem recordSyncSettings_spec :
    ∀ (s : SyncSettings) (now : Nat),
      (recordSyncSettings s now).statsLastUpdated = some now ∧
        (recordSyncSettings s now).statsVerified = true := by
  intro s now
  exact ⟨rfl, rfl⟩

/-- Last pending write for a key, later writes taking precedence. -/
def lastWrite : List SnapWrite → Nat → Nat → Option RoundStats
  | [], _, _ => none
  | w :: ws, p, r =>
    match lastWrite ws p r with
    | some v => some v
    | none => if p = w.1.1 ∧ r = w.1.2 then some w.2 else none

/-- A write sequence resolves each key to its last write, falling back
to the prior row. -/
lemma applyWrites_apply (ws : List SnapWrite) : ∀ (m : SnapMap) (p r : Nat),
    applyWrites m ws p r = (lastWrite ws p r).or (m p r) := by
  induction ws with
  | nil => intro m p r; rfl
  | cons w ws ih =>
    intro m p r
    show applyWrites (upsertSnapshot m w.1.1 w.1.2 w.2) ws p r = _
    rw [ih]
    cases h : lastWrite ws p r with
    | none =>
      simp only [lastWrite, h, Option.none_or, upsertSnapshot]
      split <;> simp
    | some v => simp [lastWrite, h]

/-- C8: aggregation is idempotent — the stat aggregator is a pure
function of the game log, and re-running the sync orchestrator's
snapshot persistence on the same fetched data leaves the `player_stats`
map unchanged, because each upsert fully replaces the (player, round)
row with recomputed values rather than incrementing it. -/
theorem sync_idempotent :
    (∀ (isGoalie : Bool) (log : Option (List GameResult)),
        parseGameLogStats isGoalie log = parseGameLogStats isGoalie log) ∧
    (∀ (m : SnapMap) (inputs : List SyncPlayerInput),
        runSyncSnapshots (runSyncSnapshots m inputs) inputs = runSyncSnapshots m inputs) := by
  refine ⟨fun _ _ => rfl, fun m inputs => ?_⟩
  funext p r
  simp only [runSyncSnapshots, applyWrites_apply]
  cases h : lastWrite (syncWrites inputs) p r <;> simp [h]

/-- C2: goaltender shutout crediting.  A single-game log with a win,
zero goals against and no explicit shutout field credits one shutout for
the game's round; a game carrying an explicit shutout count of 2 credits
two shutouts regardless of decision and goals against; and in general a
win with zero goals against and no explicit field raises the round's
running shutout total to `max total 1` — one credit when nothing was
credited yet, no double count otherwise. -/
theorem goalie_shutout_credit :
    (∀ g : GameResult, g.decision = some "W" → g.goalsAgainst = some 0 → g.shutouts = none →
      ((parseGameLogStats true (some [g])).get (determineRound g.gameId)).shutouts = 1) ∧
    (∀ g : GameResult, g.shutouts = some 2 →
      ((parseGameLogStats true (some [g])).get (determineRound g.gameId)).shutouts = 2) ∧
    (∀ (s : GameStats) (g : GameResult),
      g.decision = some "W" → g.goalsAgainst = some 0 → g.shutouts = none →
      ((applyGame true s g).get (determineRound g.gameId)).shutouts =
        max ((s.get (determineRound g.gameId)).shutouts) 1) := by
  refine ⟨?_, ?_, fun s g hw hga hso => applyGame_goalie_shutouts s g hw hga hso⟩
  · intro g hw hga hso
    show ((applyGame true GameStats.init g).get (determineRound g.gameId)).shutouts = 1
    rw [applyGame_goalie_shutouts _ _ hw hga hso, GameStats.get_init]
    rfl
  · intro g hso
    show ((applyGame true GameStats.init g).get (determineRound g.gameId)).shutouts = 2
    unfold applyGame
    rw [GameStats.get_set_self _ _ _ (determineRound_cases g.gameId), GameStats.get_init]
    simp [applyGoalieGame_shutouts_explicit _ _ 1 hso, RoundStats.zero]

/-- Witness for C2 at concrete game logs. -/
theorem goalie_shutout_credit_witness :
    ((parseGameLogStats true (some [⟨"2024031101", none, none, some "W", none, some 0⟩])).get
        (determineRound "2024031101")).shutouts = 1 ∧
    ((parseGameLogStats true (some [⟨"2024031101", none, none, some "L", some 2, some 3⟩])).get
        (determineRound "2024031101")).shutouts = 2 :=
  ⟨goalie_shutout_credit.1 _ rfl rfl rfl, goalie_shutout_credit.2.1 _ rfl⟩

/-- `jsParseInt` on two digit characters yields their two-digit value. -/
lemma jsParseInt_two_digits (c1 c2 : Char)
    (h1 : c1.isDigit = true) (h2 : c2.isDigit = true) :
    jsParseInt [c1, c2] = some (10 * (c1.toNat - 48) + (c2.toNat - 48)) := by
  unfold jsParseInt
  simp only [digitVal, h1, if_true]
  unfold jsParseIntGo
  simp only [digitVal, h2, if_true]
  rfl

/-- C3: round classification.  For every game identifier whose two
digits immediately preceding the trailing two digits form a code in
11-17 / 21-27 / 31-47 the classifier returns 1 / 2 / 3 respectively and
otherwise defaults to 1; every identifier shorter than 4 characters
returns 1; and the classifier is total, always producing one of 1, 2, 3
with no failure mode. -/
theorem determineRound_spec :
    (∀ (p : List Char) (c1 c2 d1 d2 : Char),
      c1.isDigit = true → c2.isDigit = true →
      determineRound (String.mk (p ++ [c1, c2, d1, d2])) =
        (let code := 10 * (c1.toNat - 48) + (c2.toNat - 48)
         if 11 ≤ code ∧ code ≤ 17 then 1
         else if 21 ≤ code ∧ code ≤ 27 then 2
         else if 31 ≤ code ∧ code ≤ 47 then 3
         else 1)) ∧
    (∀ g : String, g.length < 4 → determineRound g = 1) ∧
    (∀ g : String, determineRound g = 1 ∨ determineRound g = 2 ∨ determineRound g = 3) := by
  refine ⟨?_, ?_, determineRound_cases⟩
  · intro p c1 c2 d1 d2 h1 h2
    unfold determineRound
    show (if (p ++ [c1, c2, d1, d2]).length < 4 then 1 else _) = _
    have hlen : (p ++ [c1, c2, d1, d2]).length = p.length + 4 := by simp
    rw [hlen, if_neg (by omega)]
    have hdrop : (p ++ [c1, c2, d1, d2]).drop (p.length + 4 - 4) = [c1, c2, d1, d2] := by
      have h : p.length + 4 - 4 = p.length := by omega
      rw [h]
      exact List.drop_left p _
    rw [hdrop]
    show (match jsParseInt [c1, c2] with
      | none => 1
      | some roundCode =>
        if 11 ≤ roundCode ∧ roundCode ≤ 17 then 1
        else if 21 ≤ roundCode ∧ roundCode ≤ 27 then 2
        else if 31 ≤ roundCode ∧ roundCode ≤ 47 then 3
        else 1) = _
    rw [jsParseInt_two_digits c1 c2 h1 h2]
  · intro g hg
    unfold determineRound
    exact if_pos hg

/-- Witness for C3: game identifiers with codes 12, 25, 31, 47, 99 and a
short identifier. -/
theorem determineRound_spec_witness :
    determineRound "2024031201" = 1 ∧ determineRound "2024032501" = 2 ∧
      determineRound "2024033101" = 3 ∧ determineRound "2024034701" = 3 ∧
      determineRound "2024039901" = 1 ∧ determineRound "5" = 1 := by
  refine ⟨?_, ?_, ?_, ?_, ?_, determineRound_spec.2.1 "5" (by decide)⟩ <;>
    exact determineRound_spec.1 "202403".data _ _ _ _ rfl rfl

/-- Normal form of the save handler once the round is valid, its
deadline is set and the deadline has not passed. -/
lemma saveRoster_unlocked (db : Db) (now userId round : Nat) (sels : SelectionsInput)
    (stars : List Nat) (nid : Nat) (rr : RoundRow) (deadline : Nat)
    (h1 : 1 ≤ round) (h3 : round ≤ 3) (hfr : findRound db round = some rr)
    (hdl : rr.pickDeadline = some deadline) (hnl : ¬ deadline < now) :
    saveRoster db now userId round sels stars nid =
      (let rosterId := (findRoster db userId round).elim nid (·.id)
       let rosters' :=
         match findRoster db userId round with
         | some _ => db.rosters
         | none => db.rosters ++ [⟨nid, userId, round, false⟩]
       let cleared := db.rosterPlayers.filter (fun s => s.rosterId != rosterId)
       let playerIds := sels.playerIds
       if playerIds.isEmpty then
         (.saved rosterId, { db with rosters := rosters', rosterPlayers := cleared })
       else if SALARY_CAP < rosterCost db playerIds then (.overCap, db)
       else if 0 < unqualifiedCount db round playerIds then (.notQualified, db)
       else
         (.saved rosterId,
           { db with
             rosters := rosters',
             rosterPlayers := cleared ++
               playerIds.map (fun pid => SelectionRow.mk rosterId pid (stars.contains pid)) })) := by
  unfold saveRoster
  rw [if_neg (by omega), hfr]
  dsimp only
  rw [hdl]
  dsimp only
  rw [if_neg hnl]
  cases hro : findRoster db userId round <;>
    by_cases he : sels.playerIds = [] <;>
      by_cases hc : SALARY_CAP < rosterCost db sels.playerIds <;>
        by_cases hq : 0 < unqualifiedCount db round sels.playerIds <;>
          simp [hro, he, hc, hq, List.isEmpty_iff]

/-- The cost query over an empty id list totals zero. -/
lemma rosterCost_nil (db : Db) : rosterCost db [] = 0 := by
  simp [rosterCost]

/-- C5: salary-cap boundary on save.  With a valid, deadline-bearing,
unlocked round, the save handler rejects any selection set whose summed
cost exceeds 30 and leaves the database unchanged, and never rejects on
cap grounds a selection set whose summed cost is exactly 30. -/
theorem salary_cap_boundary :
    ∀ (db : Db) (now userId round : Nat) (sels : SelectionsInput) (stars : List Nat)
      (nid : Nat) (rr : RoundRow) (deadline : Nat),
      1 ≤ round → round ≤ 3 →
      findRound db round = some rr → rr.pickDeadline = some deadline → ¬ deadline < now →
      (30 < rosterCost db sels.playerIds →
          saveRoster db now userId round sels stars nid = (.overCap, db)) ∧
        (rosterCost db sels.playerIds = 30 →
          (saveRoster db now userId round sels stars nid).1 ≠ .overCap) := by
  intro db now userId round sels stars nid rr deadline h1 h3 hfr hdl hnl
  rw [saveRoster_unlocked db now userId round sels stars nid rr deadline h1 h3 hfr hdl hnl]
  constructor
  · intro hcap
    have he : sels.playerIds.isEmpty = false := by
      cases hmt : sels.playerIds.isEmpty
      · rfl
      · rw [List.isEmpty_iff] at hmt
        rw [hmt, rosterCost_nil] at hcap
        omega
    simp only [he, Bool.false_eq_true, if_false]
    have hcap' : SALARY_CAP < rosterCost db sels.playerIds := hcap
    rw [if_pos hcap']
  · intro hcap
    cases he : sels.playerIds.isEmpty
    · simp only [he, Bool.false_eq_true, if_false]
      rw [if_neg (by simp [SALARY_CAP, hcap])]
      split <;> simp
    · simp only [he, if_true]
      simp

/-- Concrete state for the C5 witness: round 1 unlocked at time 50,
three qualified players costing 16, 15 and 14. -/
def capDb : Db :=
  { users := [], teams := [⟨"EDM", .western⟩],
    players := [⟨1, .forward, 16, "EDM"⟩, ⟨2, .forward, 15, "EDM"⟩, ⟨3, .forward, 14, "EDM"⟩],
    rounds := [⟨1, some 100⟩], rosters := [], rosterPlayers := [],
    qualifications := [⟨1, "EDM", true⟩], playerStats := [] }

/-- Witness for C5: a 31-cost selection is rejected over the cap, a
30-cost selection is not. -/
theorem salary_cap_boundary_witness :
    saveRoster capDb 50 7 1 ⟨[1, 2], [], [], [], [], []⟩ [] 99 = (.overCap, capDb) ∧
      (saveRoster capDb 50 7 1 ⟨[1, 3], [], [], [], [], []⟩ [] 99).1 ≠ .overCap :=
  ⟨(salary_cap_boundary capDb 50 7 1 ⟨[1, 2], [], [], [], [], []⟩ [] 99 ⟨1, some 100⟩ 100
      (by decide) (by decide) (by decide) (by decide) (by decide)).1 (by decide),
    (salary_cap_boundary capDb 50 7 1 ⟨[1, 3], [], [], [], [], []⟩ [] 99 ⟨1, some 100⟩ 100
      (by decide) (by decide) (by decide) (by decide) (by decide)).2 (by decide)⟩

/-- C10: with a valid, deadline-bearing, unlocked round, saving an empty
selection set always succeeds — the salary-cap and team-qualification
checks are skipped entirely (the quantification covers databases where
any non-empty selection would violate both) — and every previously
saved selection of that user's roster for the round is deleted. -/
theorem empty_save_spec :
    ∀ (db : Db) (now userId round : Nat) (stars : List Nat) (nid : Nat)
      (rr : RoundRow) (deadline : Nat),
      1 ≤ round → round ≤ 3 →
      findRound db round = some rr → rr.pickDeadline = some deadline → ¬ deadline < now →
      (saveRoster db now userId round .empty stars nid).1 =
          .saved ((findRoster db userId round).elim nid (·.id)) ∧
        (saveRoster db now userId round .empty stars nid).2.rosterPlayers =
          db.rosterPlayers.filter
            (fun s => s.rosterId != (findRoster db userId round).elim nid (·.id)) := by
  intro db now userId round stars nid rr deadline h1 h3 hfr hdl hnl
  rw [saveRoster_unlocked db now userId round .empty stars nid rr deadline h1 h3 hfr hdl hnl]
  cases hro : findRoster db userId round <;>
    simp [hro, SelectionsInput.empty, SelectionsInput.playerIds]

/-- Concrete state for the C10 witness: user 1's round-2 roster 10 holds
an over-cap, unqualified player; roster 11 belongs to someone else. -/
def emptySaveDb : Db :=
  { users := [], teams := [⟨"EDM", .western⟩],
    players := [⟨1, .forward, 50, "EDM"⟩],
    rounds := [⟨2, some 100⟩],
    rosters := [⟨10, 1, 2, false⟩],
    rosterPlayers := [⟨10, 1, false⟩, ⟨11, 1, true⟩],
    qualifications := [], playerStats := [] }

/-- Witness for C10: the empty save succeeds on `emptySaveDb` and
deletes exactly roster 10's selections. -/
theorem empty_save_spec_witness :
    (saveRoster emptySaveDb 50 1 2 .empty [] 99).1 = .saved 10 ∧
      (saveRoster emptySaveDb 50 1 2 .empty [] 99).2.rosterPlayers = [⟨11, 1, true⟩] := by
  have h := empty_save_spec emptySaveDb 50 1 2 [] 99 ⟨2, some 100⟩ 100
    (by decide) (by decide) (by decide) (by decide) (by decide)
  refine ⟨?_, ?_⟩
  · rw [h.1]
    rfl
  · rw [h.2]
    rfl

/-- Concrete state for C1: user 1's round-1 roster (id 10) is already
submitted and holds player 1; round 1 is unlocked at time 50; player 2
is a cheap, qualified alternative. -/
def submittedDb : Db :=
  { users := [], teams := [⟨"EDM", .western⟩],
    players := [⟨1, .forward, 3, "EDM"⟩, ⟨2, .forward, 4, "EDM"⟩],
    rounds := [⟨1, some 100⟩], rosters := [⟨10, 1, 1, true⟩],
    rosterPlayers := [⟨10, 1, false⟩], qualifications := [⟨1, "EDM", true⟩],
    playerStats := [] }

/-- C1 (code bug): the rounds-table revision of the save handler never
consults the submission flag — saving over user 1's already-submitted
round-1 roster succeeds and replaces its selection set (player 1 is
deleted, player 2 inserted), instead of being rejected with the roster
left unchanged. -/
theorem save_overwrites_submitted_roster :
    submittedDb.rosters = [⟨10, 1, 1, true⟩] ∧
      saveRoster submittedDb 50 1 1 ⟨[2], [], [], [], [], []⟩ [] 99 =
        (.saved 10, { submittedDb with rosterPlayers := [⟨10, 2, false⟩] }) := by
  decide

/-- The handler's `isComplete` boolean, rephrased as the conjunction of
its six positional counts and the total star count. -/
lemma rosterComplete_iff (rows : List (Conference × Position × Bool)) :
    rosterComplete rows = true ↔
      (countPos rows .western .forward = 3 ∧ countPos rows .western .defense = 2 ∧
        countPos rows .western .goalie = 1 ∧
        countPos rows .eastern .forward = 3 ∧ countPos rows .eastern .defense = 2 ∧
        countPos rows .eastern .goalie = 1 ∧
        countStars rows = 3) := by
  unfold rosterComplete
  simp [Bool.and_eq_true, and_assoc]

/-- Concrete state for C4: a roster with exactly 3 forwards, 2
defensemen and 1 goalie in each conference, whose three starred
selections are two forwards and a defenseman — no goalie star, two
stars in one role. -/
def lopsidedStarDb : Db :=
  { users := [],
    teams := [⟨"W", .western⟩, ⟨"E", .eastern⟩],
    players := [⟨1, .forward, 1, "W"⟩, ⟨2, .forward, 1, "W"⟩, ⟨3, .forward, 1, "W"⟩,
                ⟨4, .defense, 1, "W"⟩, ⟨5, .defense, 1, "W"⟩, ⟨6, .goalie, 1, "W"⟩,
                ⟨7, .forward, 1, "E"⟩, ⟨8, .forward, 1, "E"⟩, ⟨9, .forward, 1, "E"⟩,
                ⟨10, .defense, 1, "E"⟩, ⟨11, .defense, 1, "E"⟩, ⟨12, .goalie, 1, "E"⟩],
    rounds := [⟨1, some 100⟩],
    rosters := [⟨20, 1, 1, false⟩],
    rosterPlayers := [⟨20, 1, true⟩, ⟨20, 2, true⟩, ⟨20, 3, false⟩,
                      ⟨20, 4, true⟩, ⟨20, 5, false⟩, ⟨20, 6, false⟩,
                      ⟨20, 7, false⟩, ⟨20, 8, false⟩, ⟨20, 9, false⟩,
                      ⟨20, 10, false⟩, ⟨20, 11, false⟩, ⟨20, 12, false⟩],
    qualifications := [], playerStats := [] }

/-- C4 (counterexample): the submit handler accepts a roster whose three
stars are two forwards and a defenseman — no goalie star and two stars
in the forward role — although the claim requires such a roster to be
rejected as incomplete. -/
theorem submit_accepts_lopsided_stars :
    (submitRoster lopsidedStarDb 50 1 1).1 = .submitted ∧
      countStars (rosterPositionRows lopsidedStarDb 20) = 3 ∧
      ((rosterPositionRows lopsidedStarDb 20).filter
          (fun r => r.2.1 == Position.goalie && r.2.2)).length = 0 ∧
      ((rosterPositionRows lopsidedStarDb 20).filter
          (fun r => r.2.1 == Position.forward && r.2.2)).length = 2 := by
  decide

/-- C4 (amended): with the round's deadline set and not passed and a
roster present, submission succeeds exactly when the roster has 3
forwards, 2 defensemen and 1 goaltender per conference and exactly 3
starred selections in total; the distribution of the stars across roles
is not checked.  Any roster violating the counts or the star total is
rejected as incomplete. -/
theorem submit_composition_spec :
    ∀ (db : Db) (now userId round : Nat) (rr : RoundRow) (deadline : Nat) (r : RosterRow),
      findRound db round = some rr → rr.pickDeadline = some deadline → ¬ deadline < now →
      findRoster db userId round = some r →
      ((submitRoster db now userId round).1 = .submitted ↔
        (countPos (rosterPositionRows db r.id) .western .forward = 3 ∧
          countPos (rosterPositionRows db r.id) .western .defense = 2 ∧
          countPos (rosterPositionRows db r.id) .western .goalie = 1 ∧
          countPos (rosterPositionRows db r.id) .eastern .forward = 3 ∧
          countPos (rosterPositionRows db r.id) .eastern .defense = 2 ∧
          countPos (rosterPositionRows db r.id) .eastern .goalie = 1 ∧
          countStars (rosterPositionRows db r.id) = 3)) := by
  intro db now userId round rr deadline r hfr hdl hnl hro
  rw [← rosterComplete_iff]
  unfold submitRoster
  rw [hfr]
  dsimp only
  rw [hdl]
  dsimp only
  rw [if_neg hnl, hro]
  dsimp only
  cases hc : rosterComplete (rosterPositionRows db r.id) <;> simp [hc]

/-- Witness for C4 (amended): `lopsidedStarDb` satisfies the amended
completeness condition, so its submission goes through. -/
theorem submit_composition_spec_witness :
    (submitRoster lopsidedStarDb 50 1 1).1 = .submitted :=
  (submit_composition_spec lopsidedStarDb 50 1 1 ⟨1, some 100⟩ 100 ⟨20, 1, 1, false⟩
    (by decide) (by decide) (by decide) (by decide)).mpr (by decide)

/-- A selection's points do not depend on the `rosters` table. -/
lemma selectionPoints_rosters_irrel (db : Db) (x : List RosterRow)
    (s : SelectionRow) (rd : Nat) :
    selectionPoints { db with rosters := x } s rd = selectionPoints db s rd := rfl

/-- Filtering a roster list to submitted rows first does not change a
filter that itself requires submission. -/
lemma filter_submitted_and (l : List RosterRow) (q : RosterRow → Bool) :
    (l.filter (·.isSubmitted)).filter (fun r => q r && r.isSubmitted) =
      l.filter (fun r => q r && r.isSubmitted) := by
  induction l with
  | nil => rfl
  | cons a l ih =>
    by_cases hs : a.isSubmitted <;> by_cases hq : q a <;>
      simp [List.filter_cons, hs, hq, ih]

/-- C7: leaderboard membership and ordering.  Every verified user
appears in the leaderboard with their computed total; a verified user
none of whose rosters is submitted appears with total 0 rather than
being omitted; only submitted rosters contribute points (restricting
the rosters table to submitted rows changes no total); and the rows are
ordered by descending total points. -/
theorem leaderboard_membership :
    (∀ (db : Db) (u : UserRow), u ∈ db.users → u.isVerified = true →
      (⟨u.id, u.username, totalPoints db u.id⟩ : LeaderboardRow) ∈ leaderboard db) ∧
    (∀ (db : Db) (u : UserRow), u ∈ db.users → u.isVerified = true →
      (∀ r ∈ db.rosters, r.userId = u.id → r.isSubmitted = false) →
      (⟨u.id, u.username, 0⟩ : LeaderboardRow) ∈ leaderboard db) ∧
    (∀ (db : Db) (userId : Nat),
      totalPoints db userId =
        totalPoints { db with rosters := db.rosters.filter (·.isSubmitted) } userId) ∧
    (∀ db : Db, (leaderboard db).Pairwise (fun a b => b.totalPoints ≤ a.totalPoints)) := by
  refine ⟨?_, ?_, ?_, ?_⟩
  · intro db u hu hv
    unfold leaderboard
    rw [List.mem_mergeSort]
    exact List.mem_map_of_mem _ (List.mem_filter.mpr ⟨hu, hv⟩)
  · intro db u hu hv hns
    have htotal : totalPoints db u.id = 0 := by
      unfold totalPoints
      have hnil : db.rosters.filter (fun r => r.userId == u.id && r.isSubmitted) = [] := by
        rw [List.filter_eq_nil_iff]
        intro a ha hcon
        rw [Bool.and_eq_true] at hcon
        have heq : a.userId = u.id := by simpa using hcon.1
        have hfalse := hns a ha heq
        rw [hfalse] at hcon
        exact Bool.false_ne_true hcon.2
      rw [hnil]
      rfl
    unfold leaderboard
    rw [List.mem_mergeSort]
    have hmem := List.mem_map_of_mem
      (fun u : UserRow => (⟨u.id, u.username, totalPoints db u.id⟩ : LeaderboardRow))
      (List.mem_filter.mpr ⟨hu, hv⟩)
    dsimp only at hmem
    rw [htotal] at hmem
    exact hmem
  · intro db userId
    simp only [totalPoints, selectionPoints_rosters_irrel]
    rw [filter_submitted_and]
  · intro db
    have htrans : ∀ a b c : LeaderboardRow,
        decide (b.totalPoints ≤ a.totalPoints) = true →
        decide (c.totalPoints ≤ b.totalPoints) = true →
        decide (c.totalPoints ≤ a.totalPoints) = true := by
      intro a b c h1 h2
      simp only [decide_eq_true_eq] at h1 h2 ⊢
      omega
    have htotal2 : ∀ a b : LeaderboardRow,
        (decide (b.totalPoints ≤ a.totalPoints) ||
          decide (a.totalPoints ≤ b.totalPoints)) = true := by
      intro a b
      simp only [Bool.or_eq_true, decide_eq_true_eq]
      omega
    have h := List.sorted_mergeSort htrans htotal2
      ((db.users.filter (·.isVerified)).map
        (fun u => (⟨u.id, u.username, totalPoints db u.id⟩ : LeaderboardRow)))
    unfold leaderboard
    exact h.imp (fun hab => by simpa using hab)

/-- Concrete state for the C7 witness: verified users alice (one
submitted starred roster) and bob (one unsubmitted roster), and an
unverified eve. -/
def lbDb : Db :=
  { users := [⟨1, "alice", true⟩, ⟨2, "bob", true⟩, ⟨3, "eve", false⟩],
    teams := [⟨"EDM", .western⟩],
    players := [⟨1, .forward, 3, "EDM"⟩],
    rounds := [⟨1, some 100⟩],
    rosters := [⟨10, 1, 1, true⟩, ⟨11, 2, 1, false⟩],
    rosterPlayers := [⟨10, 1, true⟩, ⟨11, 1, true⟩],
    qualifications := [],
    playerStats := [⟨1, 1, 2, 1, 0, 0⟩] }

/-- Witness for C7: alice appears with her computed total and bob, with
no submitted roster, appears with total 0. -/
theorem leaderboard_membership_witness :
    (⟨1, "alice", totalPoints lbDb 1⟩ : LeaderboardRow) ∈ leaderboard lbDb ∧
      (⟨2, "bob", 0⟩ : LeaderboardRow) ∈ leaderboard lbDb :=
  ⟨leaderboard_membership.1 lbDb ⟨1, "alice", true⟩ (by decide) (by decide),
    leaderboard_membership.2.1 lbDb ⟨2, "bob", true⟩ (by decide) (by decide) (by decide)⟩

end NetSports
